import Mathlib

/-!
Verification of the Story-Book application (`app.py`): a shallow embedding
of its session state, wrapper functions (`translate_text`, `txt2story`,
`create_audio`, `initialize_session_state`) and of the orchestration that
runs on the "Weave Your Story" button, together with theorems settling the
specification's claims about them.

External services (the captioning model, the Together chat API, the
googletrans backend, gTTS) are modelled as oracles supplied in a `RunEnv`:
an `Option`/`Bool` result encodes "the call returned a value" versus "the
call raised an exception" (in the source every such exception is caught at
the wrapper boundary and surfaced as a Streamlit error/warning message, an
I/O effect outside this embedding).
-/

namespace StoryBook

/-- Python truthiness of an `Optional[str]`: `None` and `""` are falsy.
The source gates on `if scenario:` and `if story:`. -/
def truthy : Option String → Bool
  | none => false
  | some s => s != ""

/-- The nine story preferences collected by `get_user_preferences`
(app.py:156-168). -/
structure Preferences where
  region : String
  genre : String
  setting : String
  plot : String
  tone : String
  theme : String
  conflict : String
  twist : String
  ending : String
deriving DecidableEq

/-- Session-state record once `initialize_session_state` has run: the five
fields of `st.session_state` used by the app (app.py:74-85). -/
structure SessionState where
  story_english : Option String
  story_translated : Option String
  audio_file_path : Option String
  caption : Option String
  processing_complete : Bool
deriving DecidableEq

/-- Raw `st.session_state` before initialization: each key may be absent
(outer `none`). A present string key holds an `Option String` because the
app stores `None` in them initially. -/
structure RawSession where
  story_english? : Option (Option String)
  story_translated? : Option (Option String)
  audio_file_path? : Option (Option String)
  caption? : Option (Option String)
  processing_complete? : Option Bool
deriving DecidableEq

/-- `initialize_session_state` (app.py:74-85): each field is assigned its
default only when the key is absent; present keys are left untouched. -/
def initialize_session_state (s : RawSession) : RawSession :=
  { story_english? := some (s.story_english?.getD none)
    story_translated? := some (s.story_translated?.getD none)
    audio_file_path? := some (s.audio_file_path?.getD none)
    caption? := some (s.caption?.getD none)
    processing_complete? := some (s.processing_complete?.getD false) }

/-- The two fixed-path files the app writes (app.py:218, app.py:150).
`uploaded_image` holds the bytes written to `uploaded_image.jpg`;
`story_audio` holds the (text, language) last synthesized into
`story_audio.mp3`. `none` means the file does not exist. -/
structure FS where
  uploaded_image : Option String
  story_audio : Option (String × String)
deriving DecidableEq

/-- The whole mutable state a pipeline run touches: the two files and the
session record. -/
structure World where
  fs : FS
  session : SessionState
deriving DecidableEq

/-- Fresh world: no files, session as left by `initialize_session_state`
on a fresh session (all string fields `None`, `processing_complete`
`False`). -/
def w0 : World :=
  { fs := { uploaded_image := none, story_audio := none }
    session := { story_english := none, story_translated := none,
                 audio_file_path := none, caption := none,
                 processing_complete := false } }

/-- `translate_text` (app.py:125-136). `backend text lang` models
`Translator().translate(text, dest=lang).text`: `some t` is a successful
backend reply, `none` a raised exception, which the source catches (showing
a `st.warning`) and answers with the original text. The `"en"` branch
returns before the backend is ever consulted. -/
def translate_text (backend : String → String → Option String)
    (text target_lang : String) : String :=
  if target_lang = "en" then
    text
  else
    match backend text target_lang with
    | some t => t
    | none => text

/-- The prompt wrapper built inside `txt2story` (app.py:102). -/
def story_prompt (prompt : String) : String :=
  "Write a short story of no more than 250 words based on the following prompt: " ++ prompt

/-- `txt2story` (app.py:97-123). `genApi p` models the whole streamed
chat-completion call on prompt `p`: `some chunks` is the list of streamed
fragments, `none` any raised exception (auth failure, network error, a
`None` fragment making `story += chunk...` raise). On success the source
concatenates the fragments into one string; on exception it shows an error
and returns `None`. -/
def txt2story (genApi : String → Option (List String)) (prompt : String) :
    Option String :=
  match genApi (story_prompt prompt) with
  | none => none
  | some chunks => some (chunks.foldl (fun acc c => acc ++ c) "")

/-- The 28-space indentation each continuation line of the triple-quoted
f-string at app.py:235-240 carries. -/
def promptIndent : String := "                            "

/-- The generation prompt built in `main` (app.py:235-240), exactly as the
f-string reads: it substitutes the caption (`scenario`) and eight of the
preferences; `preferences['plot']` does not appear in the template. -/
def buildPrompt (scenario : String) (p : Preferences) : String :=
  "Based on the image description: '" ++ scenario ++ "', \n" ++ promptIndent ++
  "create a " ++ p.genre ++ " story set in " ++ p.setting ++ " \n" ++ promptIndent ++
  "in " ++ p.region ++ ". The story should have a " ++ p.tone ++ " \n" ++ promptIndent ++
  "tone and explore the theme of " ++ p.theme ++ ". The main conflict \n" ++ promptIndent ++
  "should be " ++ p.conflict ++ ". The story should have a " ++ p.twist ++ " \n" ++ promptIndent ++
  "and end with a " ++ p.ending ++ " ending."

/-- `create_audio` (app.py:138-154): on success gTTS writes
`story_audio.mp3` and the function returns `True`; on a raised exception
it shows an error and returns `False` with the file untouched. `ttsOk`
models whether `gTTS(text=..., lang=...)` + `save` succeeds. -/
def create_audio (ttsOk : String → String → Bool) (text language_code : String)
    (fs : FS) : FS × Bool :=
  if ttsOk text language_code then
    ({ fs with story_audio := some (text, language_code) }, true)
  else
    (fs, false)

/-- One run's external-world outcomes. -/
structure RunEnv where
  /-- Result of `img2txt("uploaded_image.jpg")` (app.py:87-95): `some c`
  is the generated caption, `none` means the captioning model raised (the
  wrapper shows an error and returns `None`). -/
  img2txt : Option String
  /-- The streamed chat-completion call used by `txt2story`. -/
  genApi : String → Option (List String)
  /-- The googletrans backend used by `translate_text`. -/
  backend : String → String → Option String
  /-- Whether gTTS synthesis succeeds for a given (text, language). -/
  ttsOk : String → String → Bool

/-- The button handler body (app.py:223-257): caption, translate caption,
build prompt, generate story, translate story, synthesize audio, in that
order; each `if` gate is Python truthiness. Fields not assigned on a path
keep their previous values — nothing is ever cleared. -/
def runButton (env : RunEnv) (lang : String) (prefs : Preferences)
    (w : World) : World :=
  match env.img2txt with
  | none => w
  | some scenario =>
    if scenario = "" then w
    else
      let w1 : World :=
        { w with session :=
            { w.session with caption := some (translate_text env.backend scenario lang) } }
      match txt2story env.genApi (buildPrompt scenario prefs) with
      | none => w1
      | some story =>
        if story = "" then w1
        else
          let storyT := translate_text env.backend story lang
          let w2 : World :=
            { w1 with session :=
                { w1.session with story_english := some story,
                                  story_translated := some storyT } }
          let audioRes := create_audio env.ttsOk storyT lang w2.fs
          let w3 : World :=
            if audioRes.2 then
              { w2 with fs := audioRes.1,
                        session := { w2.session with audio_file_path := some "story_audio.mp3" } }
            else
              { w2 with fs := audioRes.1 }
          { w3 with session := { w3.session with processing_complete := true } }

/-- Writing the uploaded bytes to `uploaded_image.jpg` (app.py:217-219):
happens on every rerun with a file present, before the button is checked. -/
def uploadImage (bytes : String) (w : World) : World :=
  { w with fs := { w.fs with uploaded_image := some bytes } }

/-- One full user action with a (new) image: the upload write followed by
the button handler. -/
def runFull (env : RunEnv) (img lang : String) (prefs : Preferences)
    (w : World) : World :=
  runButton env lang prefs (uploadImage img w)

/-- "Captioning succeeded in this run": `img2txt` returned a truthy
string, so the `if scenario:` gate (app.py:228) is taken. -/
def captionSucceeded (env : RunEnv) : Bool :=
  truthy env.img2txt

/-- "Story generation succeeded in this run": captioning succeeded and
`txt2story` on the built prompt returned a truthy string, so the
`if story:` gate (app.py:243) is taken. -/
def generationSucceeded (env : RunEnv) (prefs : Preferences) : Bool :=
  match env.img2txt with
  | none => false
  | some scenario =>
      scenario != "" && truthy (txt2story env.genApi (buildPrompt scenario prefs))

/-- `os.path.exists` restricted to the two fixed paths the app writes. -/
def fileExists (fs : FS) (p : String) : Bool :=
  if p = "uploaded_image.jpg" then fs.uploaded_image.isSome
  else if p = "story_audio.mp3" then fs.story_audio.isSome
  else false

/-- The audio-player display gate (app.py:264, 284): the player renders iff
`processing_complete` is set, `audio_file_path` is truthy and the file it
names exists. -/
def audioPlayerShown (w : World) : Bool :=
  w.session.processing_complete &&
  (match w.session.audio_file_path with
   | none => false
   | some p => (p != "") && fileExists w.fs p)

/-- Substring occurrence, on the underlying character lists. -/
def occursIn (needle hay : String) : Prop :=
  needle.data <:+: hay.data

instance (needle hay : String) : Decidable (occursIn needle hay) := by
  unfold occursIn
  infer_instance

/-- A fixed preference set for concrete runs: the scenario of spec §8. -/
def specPrefs : Preferences :=
  { region := "East India", genre := "Folklore", setting := "Village Life",
    plot := "Friendship and loyalty", tone := "Humorous", theme := "Hope",
    conflict := "Man vs. Nature", twist := "Hidden lineage", ending := "Happy" }

/-- An environment in which every external call succeeds. -/
def envGood : RunEnv :=
  { img2txt := some "a dog running on a beach"
    genApi := fun _ => some ["Once upon a time", ", a dog ran."]
    backend := fun t _ => some ("T[" ++ t ++ "]")
    ttsOk := fun _ _ => true }

/-- An environment in which the captioning model raises. -/
def envCapFail : RunEnv :=
  { img2txt := none
    genApi := fun _ => some ["unused"]
    backend := fun t _ => some ("T[" ++ t ++ "]")
    ttsOk := fun _ _ => true }

/-- An environment in which captioning and generation succeed but gTTS
raises, so `create_audio` returns `False`. -/
def envAudioFail : RunEnv :=
  { img2txt := some "a cat on a mat"
    genApi := fun _ => some ["A second story."]
    backend := fun t _ => some ("T[" ++ t ++ "]")
    ttsOk := fun _ _ => false }

/-- An environment in which captioning succeeds but the generation call
raises (for instance an authentication error). -/
def envGenFail : RunEnv :=
  { img2txt := some "a dog running on a beach"
    genApi := fun _ => none
    backend := fun t _ => some ("T[" ++ t ++ "]")
    ttsOk := fun _ _ => true }

/-- A world reached by one fully successful run (language "en") from a
fresh session: all five session fields populated, both files written. -/
def wDone : World := runFull envGood "img1" "en" specPrefs w0

/-- A raw session as it looks after a successful run: every key present,
`processing_complete` holding `true`. -/
def rawDone : RawSession :=
  { story_english? := some (some "Once upon a time, a dog ran.")
    story_translated? := some (some "Once upon a time, a dog ran.")
    audio_file_path? := some (some "story_audio.mp3")
    caption? := some (some "a dog running on a beach")
    processing_complete? := some true }

/-- How one button run transforms `processing_complete`: it ends true iff
it was already true or this run's captioning and generation both
succeeded. Shared shape lemma for the invariants below. -/
theorem runButton_processing_complete (env : RunEnv) (lang : String)
    (prefs : Preferences) (w : World) :
    (runButton env lang prefs w).session.processing_complete =
      (w.session.processing_complete ||
        (captionSucceeded env && generationSucceeded env prefs)) := by
  unfold runButton captionSucceeded generationSucceeded
  cases henv : env.img2txt with
  | none => simp [truthy]
  | some scenario =>
    by_cases hs : scenario = ""
    · subst hs; simp [truthy]
    · cases hg : txt2story env.genApi (buildPrompt scenario prefs) with
      | none => simp [truthy, hs, hg]
      | some story =>
        by_cases hst : story = ""
        · subst hst; simp [truthy, hs, hg]
        · simp only [truthy, hs, hg, hst]
          simp [hs, hst]

/-- One button run either leaves `audio_file_path` as it was or stores the
constant `"story_audio.mp3"` — the only value ever assigned to it
(app.py:255). -/
theorem runButton_audio_file_path (env : RunEnv) (lang : String)
    (prefs : Preferences) (w : World) :
    (runButton env lang prefs w).session.audio_file_path =
        w.session.audio_file_path ∨
    (runButton env lang prefs w).session.audio_file_path =
        some "story_audio.mp3" := by
  unfold runButton
  cases henv : env.img2txt with
  | none => left; rfl
  | some scenario =>
    by_cases hs : scenario = ""
    · simp [hs]
    · cases hg : txt2story env.genApi (buildPrompt scenario prefs) with
      | none => simp [hs, hg]
      | some story =>
        by_cases hst : story = ""
        · simp [hs, hg, hst]
        · simp only [hs, hg, hst]
          simp [hs, hst]
          split <;> simp

/-- C5: for every input text (and any backend), when the target language
is the pivot code "en", `translate_text` returns the input unchanged; the
result is independent of the backend — quantified over all backends with
none consulted — which is the no-external-call reading (app.py:127-128
returns before the `Translator()` is constructed). -/
theorem translate_identity_on_pivot
    (backend : String → String → Option String) (text : String) :
    translate_text backend text "en" = text := by
  simp [translate_text]

/-- C6: for every text and non-pivot target, if the backend raises
(modelled `none`), `translate_text` returns the original text; being a
total Lean function, it propagates no exception. The `st.warning` the
source emits on this branch is an I/O effect outside the embedding. -/
theorem translate_failsoft
    (backend : String → String → Option String) (text lang : String)
    (hlang : lang ≠ "en") (hfail : backend text lang = none) :
    translate_text backend text lang = text := by
  simp [translate_text, hlang, hfail]

/-- Witness for `translate_failsoft` at a concrete non-pivot failing
backend. -/
theorem translate_failsoft_witness :
    translate_text (fun _ _ => none) "a dog running on a beach" "hi" =
      "a dog running on a beach" :=
  translate_failsoft (fun _ _ => none) "a dog running on a beach" "hi"
    (by decide) rfl

/-- C8: the generation prompt is a deterministic function of the caption
and the preference record — two constructions from equal inputs yield the
same string, independently of anything else. -/
theorem buildPrompt_deterministic
    (c c' : String) (p p' : Preferences) (hc : c = c') (hp : p = p') :
    buildPrompt c p = buildPrompt c' p' := by
  rw [hc, hp]

/-- Witness for `buildPrompt_deterministic` at the spec §8 inputs. -/
theorem buildPrompt_deterministic_witness :
    buildPrompt "a dog running on a beach" specPrefs =
      buildPrompt "a dog running on a beach" specPrefs :=
  buildPrompt_deterministic "a dog running on a beach" "a dog running on a beach"
    specPrefs specPrefs rfl rfl

/-- C1 (amended): after a pipeline run that starts with
`processing_complete` false — in particular in a fresh session —
`processing_complete` is true iff both captioning and generation succeeded
in that run. (The unamended claim, over every run, fails: no run ever
resets the flag, see the counterexample.) -/
theorem processing_complete_iff_run_succeeded
    (env : RunEnv) (lang : String) (prefs : Preferences) (w : World)
    (h : w.session.processing_complete = false) :
    (runButton env lang prefs w).session.processing_complete = true ↔
      captionSucceeded env = true ∧ generationSucceeded env prefs = true := by
  rw [runButton_processing_complete, h]
  simp

/-- Witness for `processing_complete_iff_run_succeeded`: a fully
successful run from the fresh session. -/
theorem processing_complete_iff_run_succeeded_witness :
    (runButton envGood "en" specPrefs w0).session.processing_complete = true ↔
      captionSucceeded envGood = true ∧
        generationSucceeded envGood specPrefs = true :=
  processing_complete_iff_run_succeeded envGood "en" specPrefs w0 rfl

/-- C1 counterexample: on a session whose previous run succeeded, a run
whose captioning fails still ends with `processing_complete = true` — the
flag is never written back to false (app.py:255-257 only assigns `True`),
so "true iff both succeeded in that run" is false for such runs. -/
theorem processing_complete_stale_counterexample :
    (runButton envCapFail "en" specPrefs wDone).session.processing_complete
        = true ∧
    captionSucceeded envCapFail = false ∧
    generationSucceeded envCapFail specPrefs = false := by
  refine ⟨rfl, rfl, rfl⟩

/-- C2 (amended): re-running with a new image overwrites the image file,
audio file, caption and story — provided every step of the second run
succeeds (truthy caption, truthy story, successful audio synthesis). The
resulting world is then determined entirely by the second run's inputs,
with no dependence on the prior world `w`. -/
theorem rerun_overwrites_on_full_success
    (env : RunEnv) (img lang : String) (prefs : Preferences) (w : World)
    (scenario story : String)
    (hcap : env.img2txt = some scenario) (hs : scenario ≠ "")
    (hgen : txt2story env.genApi (buildPrompt scenario prefs) = some story)
    (hst : story ≠ "")
    (haud : env.ttsOk (translate_text env.backend story lang) lang = true) :
    runFull env img lang prefs w =
      { fs := { uploaded_image := some img,
                story_audio := some (translate_text env.backend story lang, lang) }
        session := { story_english := some story,
                     story_translated := some (translate_text env.backend story lang),
                     audio_file_path := some "story_audio.mp3",
                     caption := some (translate_text env.backend scenario lang),
                     processing_complete := true } } := by
  unfold runFull runButton uploadImage create_audio
  simp [hcap, hs, hgen, hst, haud]

/-- Witness for `rerun_overwrites_on_full_success`: a second fully
successful run (language "hi") on top of `wDone` lands in a state built
only from the second run's results. -/
theorem rerun_overwrites_witness :
    runFull envGood "img2" "hi" specPrefs wDone =
      { fs := { uploaded_image := some "img2",
                story_audio := some ("T[Once upon a time, a dog ran.]", "hi") }
        session := { story_english := some "Once upon a time, a dog ran.",
                     story_translated := some "T[Once upon a time, a dog ran.]",
                     audio_file_path := some "story_audio.mp3",
                     caption := some "T[a dog running on a beach]",
                     processing_complete := true } } :=
  rerun_overwrites_on_full_success envGood "img2" "hi" specPrefs wDone
    "a dog running on a beach" "Once upon a time, a dog ran."
    rfl (by decide) rfl (by decide) rfl

/-- C2 counterexample: a second run (new image "img2") whose captioning
fails writes the new image file but leaves caption and story from the
first run in session state — a state mixing results of the two runs, so
"the second run always overwrites ... caption and story" is false. -/
theorem rerun_mixes_results_counterexample :
    (runFull envCapFail "img2" "en" specPrefs wDone).fs.uploaded_image
        = some "img2" ∧
    (runFull envCapFail "img2" "en" specPrefs wDone).session.caption
        = wDone.session.caption ∧
    wDone.session.caption = some "a dog running on a beach" ∧
    (runFull envCapFail "img2" "en" specPrefs wDone).session.story_english
        = wDone.session.story_english ∧
    wDone.session.story_english = some "Once upon a time, a dog ran." := by
  refine ⟨rfl, rfl, rfl, rfl, rfl⟩

/-- C7: if the generation call raises (modelled as `genApi` returning
`none` on the wrapped prompt), `txt2story` returns `None` rather than
propagating, and the button run performs none of the downstream steps:
the resulting world equals the pre-run world except for the caption set
earlier in the run — `story_english`, `story_translated`,
`audio_file_path`, the audio file and `processing_complete` are all left
untouched. The `st.error` the source emits is an I/O effect outside the
embedding. -/
theorem generation_failure_skips_downstream :
    (∀ (genApi : String → Option (List String)) (prompt : String),
       genApi (story_prompt prompt) = none → txt2story genApi prompt = none) ∧
    (∀ (env : RunEnv) (lang : String) (prefs : Preferences) (w : World)
       (scenario : String),
       env.img2txt = some scenario → scenario ≠ "" →
       txt2story env.genApi (buildPrompt scenario prefs) = none →
       runButton env lang prefs w =
         { w with session :=
             { w.session with
                 caption := some (translate_text env.backend scenario lang) } }) := by
  constructor
  · intro genApi prompt h
    simp [txt2story, h]
  · intro env lang prefs w scenario hcap hs hgen
    unfold runButton
    simp [hcap, hs, hgen]

/-- Witness for `generation_failure_skips_downstream`: a concrete raising
generation API, and a run (fresh session, language "en") in which
generation fails after a successful caption. -/
theorem generation_failure_skips_downstream_witness :
    txt2story (fun _ => none) "p" = none ∧
    runButton envGenFail "en" specPrefs w0 =
      { w0 with session :=
          { w0.session with caption := some "a dog running on a beach" } } :=
  ⟨generation_failure_skips_downstream.1 (fun _ => none) "p" rfl,
   generation_failure_skips_downstream.2 envGenFail "en" specPrefs w0
     "a dog running on a beach" rfl (by decide) rfl⟩

set_option maxRecDepth 40000 in
/-- C3: at the spec §8 scenario inputs, the caption and eight preference
values (region, genre, setting, tone, theme, conflict, twist, ending)
occur in the constructed prompt, but `preferences['plot']` — here
"Friendship and loyalty" — does not: the template at app.py:235-240 never
substitutes the plot field, contradicting the claim that all nine values
occur. -/
theorem plot_missing_from_prompt :
    ¬ occursIn specPrefs.plot (buildPrompt "a dog running on a beach" specPrefs) ∧
    occursIn "a dog running on a beach"
      (buildPrompt "a dog running on a beach" specPrefs) ∧
    occursIn specPrefs.region (buildPrompt "a dog running on a beach" specPrefs) ∧
    occursIn specPrefs.genre (buildPrompt "a dog running on a beach" specPrefs) ∧
    occursIn specPrefs.setting (buildPrompt "a dog running on a beach" specPrefs) ∧
    occursIn specPrefs.tone (buildPrompt "a dog running on a beach" specPrefs) ∧
    occursIn specPrefs.theme (buildPrompt "a dog running on a beach" specPrefs) ∧
    occursIn specPrefs.conflict (buildPrompt "a dog running on a beach" specPrefs) ∧
    occursIn specPrefs.twist (buildPrompt "a dog running on a beach" specPrefs) ∧
    occursIn specPrefs.ending (buildPrompt "a dog running on a beach" specPrefs) := by
  decide

/-- The world after a successful run (`wDone`) followed by a run in which
captioning and generation succeed but gTTS fails. -/
def wAfterAudioFail : World := runFull envAudioFail "img2" "en" specPrefs wDone

/-- C4: when `create_audio` fails in a run on a session whose previous
run stored audio, the orchestrator does NOT clear `audio_file_path`: it
still holds "story_audio.mp3", the file on disk is the previous run's
audio while `story_translated` is the new run's story, and the audio
player is shown — contradicting the claim that the reference is left
cleared/unset and the player hidden. -/
theorem audio_fail_leaves_stale_reference :
    wAfterAudioFail.session.audio_file_path = some "story_audio.mp3" ∧
    wAfterAudioFail.fs.story_audio = some ("Once upon a time, a dog ran.", "en") ∧
    wAfterAudioFail.session.story_translated = some "A second story." ∧
    audioPlayerShown wAfterAudioFail = true := by
  refine ⟨rfl, rfl, rfl, rfl⟩

/-- C9: `processing_complete` is monotone. (1) `initialize_session_state`
keeps a present `true` (it only assigns absent keys); (2) a single button
run keeps `true`; (3) any sequence of further full runs — each an image
upload plus button run, successful or failed — keeps `true`. -/
theorem processing_complete_monotone :
    (∀ raw : RawSession, raw.processing_complete? = some true →
       (initialize_session_state raw).processing_complete? = some true) ∧
    (∀ (env : RunEnv) (lang : String) (prefs : Preferences) (w : World),
       w.session.processing_complete = true →
       (runButton env lang prefs w).session.processing_complete = true) ∧
    (∀ (runs : List (RunEnv × String × String × Preferences)) (w : World),
       w.session.processing_complete = true →
       (runs.foldl (fun acc r => runFull r.1 r.2.1 r.2.2.1 r.2.2.2 acc)
           w).session.processing_complete = true) := by
  refine ⟨?_, ?_, ?_⟩
  · intro raw h
    simp [initialize_session_state, h]
  · intro env lang prefs w h
    rw [runButton_processing_complete, h]
    simp
  · intro runs
    induction runs with
    | nil => intro w h; exact h
    | cons r rs ih =>
        intro w h
        refine ih _ ?_
        show (runButton r.1 r.2.2.1 r.2.2.2
            (uploadImage r.2.1 w)).session.processing_complete = true
        rw [runButton_processing_complete]
        simp [uploadImage, h]

/-- Witness for `processing_complete_monotone`: a completed raw session
survives initialization, a failing-caption run keeps the flag, and so
does a subsequent full run with failing audio. -/
theorem processing_complete_monotone_witness :
    (initialize_session_state rawDone).processing_complete? = some true ∧
    (runButton envCapFail "hi" specPrefs wDone).session.processing_complete
        = true ∧
    ([(envAudioFail, "img3", "en", specPrefs)].foldl
        (fun acc r => runFull r.1 r.2.1 r.2.2.1 r.2.2.2 acc)
        wDone).session.processing_complete = true :=
  ⟨processing_complete_monotone.1 rawDone rfl,
   processing_complete_monotone.2.1 envCapFail "hi" specPrefs wDone rfl,
   processing_complete_monotone.2.2 [(envAudioFail, "img3", "en", specPrefs)]
     wDone rfl⟩

/-- Worlds reachable from the fresh world by the operations the app
performs: writing an uploaded image and running the button handler.
(`initialize_session_state` on a fresh session produces exactly
`w0.session`, and on an already-initialized session it is the identity,
so it adds no further reachable worlds.) -/
inductive Reachable : World → Prop
  | init : Reachable w0
  | upload (b : String) {w : World} : Reachable w → Reachable (uploadImage b w)
  | run (env : RunEnv) (lang : String) (prefs : Preferences) {w : World} :
      Reachable w → Reachable (runButton env lang prefs w)

/-- C10: in every reachable world, `audio_file_path` is `None` or exactly
the constant "story_audio.mp3" — the only value the code ever assigns to
it (app.py:81 assigns `None`, app.py:255 the constant). -/
theorem audio_file_path_none_or_constant
    (w : World) (h : Reachable w) :
    w.session.audio_file_path = none ∨
    w.session.audio_file_path = some "story_audio.mp3" := by
  induction h with
  | init => left; rfl
  | upload b _ ih => exact ih
  | run env lang prefs _ ih =>
      rcases runButton_audio_file_path env lang prefs _ with h' | h'
      · rw [h']; exact ih
      · right; exact h'

/-- Witness for `audio_file_path_none_or_constant` at a concrete
reachable world: the fresh world after one upload and one button run. -/
theorem audio_file_path_none_or_constant_witness :
    (runButton envGood "en" specPrefs
        (uploadImage "img1" w0)).session.audio_file_path = none ∨
    (runButton envGood "en" specPrefs
        (uploadImage "img1" w0)).session.audio_file_path =
      some "story_audio.mp3" :=
  audio_file_path_none_or_constant _
    (Reachable.run envGood "en" specPrefs (Reachable.upload "img1" Reachable.init))

end StoryBook
